import Mathlib

/-!
Shallow embedding of the tiktok-proxy service (src/app.py): the format
selection of the Resolver (pick_format), the filename deriver
(make_filename), the /api endpoint, and the /dl relay with its warm-up,
probe, decision, stream and buffer passes.  Python dicts that only serve
as key/value maps are modelled as total functions String → Option String;
response-side header maps (httpx / Starlette) are case-insensitive, so the
model keys them by the lowercase header names the code itself uses for
lookups.  Network calls are oracle inputs: an upstream interaction either
raises or yields a (status, headers, body) triple.
-/

namespace App

/-- Header map model: lookup from header name to optional value. -/
def Headers : Type := String → Option String

/-- Empty header map. -/
def hEmpty : Headers := fun _ => none

/-- Lookup, written like the code's headers.get(k). -/
def hGet (hs : Headers) (k : String) : Option String := hs k

/-- Assignment headers[k] = v. -/
def hSet (hs : Headers) (k v : String) : Headers :=
  fun q => if q = k then some v else hs q

/-- Python dict.setdefault / Starlette headers.setdefault: keep an existing
value, insert v only when the key is absent. -/
def hSetDefault (hs : Headers) (k v : String) : Headers :=
  fun q =>
    if q = k then
      match hs k with
      | some w => some w
      | none => some v
    else hs q

/-- Truthiness of a Python value that is either a str or None: None and the
empty string are falsy. -/
def pyTruthyStr : Option String → Bool
  | none => false
  | some s => !(s == "")

/-- Python expression (a or d) for a str-or-None a and a string default d. -/
def pyOrStr (a : Option String) (d : String) : String :=
  match a with
  | none => d
  | some s => if s == "" then d else s

/-- One candidate format record of the yt-dlp info dict.  A field is none
when the key is absent or its value is None (both read back as None through
dict.get).  hasKeys records whether the underlying dict has at least one
key: an empty dict is falsy in Python, which the expression
(best or info) in pick_format observes. -/
structure Format where
  ext : Option String
  vcodec : Option String
  height : Option Nat
  url : Option String
  hasKeys : Bool
deriving DecidableEq

/-- Scoring closure inside pick_format (src/app.py:44-50):
+10 for an mp4 container, +5 for an avc*/h264* video codec,
plus the pixel height (0 when absent or null). -/
def Format.score (f : Format) : Nat :=
  let s0 : Nat := 0
  let s1 := if f.ext = some ("mp4") then s0 + 10 else s0
  let v := f.vcodec.getD ("")
  let s2 := if v.startsWith ("avc") || v.startsWith ("h264") then s1 + 5 else s1
  s2 + f.height.getD 0

/-- Top-level yt-dlp extraction result, restricted to the keys the code
reads: formats, url, title, http_headers. -/
structure Info where
  formats : Option (List Format)
  url : Option String
  title : Option String
  http_headers : Option Headers

/-- Expression (info.get("formats") or []): an absent, null or empty
formats list collapses to the empty list. -/
def pyFormats (info : Info) : List Format := info.formats.getD []

/-- Python max(l, key=key, default=None): the first element attaining the
maximal key (a later element replaces the accumulator only when strictly
greater), or none for the empty list. -/
def pyMaxBy (key : Format → Nat) : List Format → Option Format
  | [] => none
  | x :: xs => some (xs.foldl (fun b f => if key b < key f then f else b) x)

/-- pick_format (src/app.py:42-52): score the candidates, take the first
maximum, and return (best or info).get("url") — the top-level url when the
list is empty or the chosen candidate is a falsy (empty) dict. -/
def pick_format (info : Info) : Option String :=
  match pyMaxBy Format.score (pyFormats info) with
  | some best => if best.hasKeys then best.url else info.url
  | none => info.url

/-- Browser user-agent constant UA (src/app.py:21-24). -/
def UA : String :=
  "Mozilla/5.0 (Windows NT 10.0; Win64; x64) AppleWebKit/537.36 (KHTML, like Gecko) Chrome/124 Safari/537.36"

/-- BASE_CLIENT_HEADERS (src/app.py:26-40), a plain case-sensitive dict. -/
def baseClientHeaders : Headers := fun k =>
  if k = "User-Agent" then some UA
  else if k = "Referer" then some ("https://www.tiktok.com/")
  else if k = "Origin" then some ("https://www.tiktok.com")
  else if k = "Accept" then some ("*/*")
  else if k = "Accept-Language" then some ("en-US,en;q=0.9,ru-RU;q=0.8,ru;q=0.7")
  else if k = "Connection" then some ("keep-alive")
  else if k = "Cache-Control" then some ("no-cache")
  else if k = "Pragma" then some ("no-cache")
  else if k = "Upgrade-Insecure-Requests" then some ("1")
  else if k = "Sec-Fetch-Site" then some ("same-origin")
  else if k = "Sec-Fetch-Mode" then some ("navigate")
  else if k = "Sec-Fetch-Dest" then some ("document")
  else if k = "TE" then some ("trailers")
  else none

/-- Result of extract (src/app.py:54-70): the picked url, the title, and
the extraction-supplied headers with the baseline entries set as defaults. -/
structure Extracted where
  vurl : Option String
  title : Option String
  headers : Headers

/-- extract on an already-obtained info dict: vurl = pick_format(info),
hdrs = (info.get("http_headers") or left empty) with each
BASE_CLIENT_HEADERS entry added via setdefault. -/
def extract (info : Info) : Extracted :=
  let hdrs0 := info.http_headers.getD hEmpty
  { vurl := pick_format info
    title := info.title
    headers := fun k =>
      match hdrs0 k with
      | some v => some v
      | none => baseClientHeaders k }

/-- Whitespace as Python str.strip and the regex class match it on the
ASCII range: space, tab, newline, carriage return, vertical tab, form feed. -/
def isPySpace (c : Char) : Bool :=
  c = ' ' || c = Char.ofNat 9 || c = Char.ofNat 10 || c = Char.ofNat 13 ||
  c = Char.ofNat 11 || c = Char.ofNat 12

/-- Character class of the regex [\\/*?:"<>|] in make_filename. -/
def isIllegalFilenameChar (c : Char) : Bool :=
  c = '\\' || c = '/' || c = '*' || c = '?' || c = ':' || c = '"' ||
  c = '<' || c = '>' || c = '|'

/-- Worker for subRuns; the flag says whether the previous character was
part of the current run (so the replacement is emitted only once). -/
def subRunsAux (p : Char → Bool) (r : Char) : Bool → List Char → List Char
  | _, [] => []
  | inRun, c :: cs =>
    if p c then
      (if inRun then subRunsAux p r true cs else r :: subRunsAux p r true cs)
    else c :: subRunsAux p r false cs

/-- re.sub of one-or-more repetitions of a character class by a single
replacement character: every maximal run of characters satisfying p becomes
one copy of r. -/
def subRuns (p : Char → Bool) (r : Char) (l : List Char) : List Char :=
  subRunsAux p r false l

/-- Python str.strip(): drop leading and trailing whitespace. -/
def pyStrip (l : List Char) : List Char :=
  ((l.dropWhile isPySpace).reverse.dropWhile isPySpace).reverse

/-- make_filename (src/app.py:72-78): default the title to "video", strip,
replace runs of illegal filename characters by an underscore, collapse
whitespace runs to one space, strip, truncate to 80 characters (reverting
to "video" when empty), append ".mp4", and derive the ASCII name by
dropping every character above 7-bit ASCII (reverting to "video.mp4" when
nothing is left). -/
def make_filename (title : Option String) : String × String :=
  let t := match title with
    | none => ("video")
    | some s => if s = "" then ("video") else s
  let base1 := pyStrip t.data
  let base2 := subRuns isIllegalFilenameChar '_' base1
  let base3 := subRuns isPySpace ' ' base2
  let base4 := (pyStrip base3).take 80
  let base := if base4 = [] then ("video").data else base4
  let fn_utf8 := String.mk base ++ ".mp4"
  let ascii := fn_utf8.data.filter (fun c => c.toNat ≤ 127)
  let fn_ascii := if ascii = [] then ("video.mp4") else String.mk ascii
  (fn_ascii, fn_utf8)

/-- JSON values as the endpoints build them. -/
inductive Json where
  | str (s : String)
  | jbool (b : Bool)
  | jnull
  | obj (fields : List (String × Json))

/-- JSON value of a str-or-None Python value. -/
def optJson : Option String → Json
  | none => Json.jnull
  | some s => Json.str s

/-- Error body shape of the service, a dict with ok set to False. -/
def errJson (e : String) : Json :=
  Json.obj [(("ok"), Json.jbool false), (("error"), Json.str e)]

/-- The /api endpoint (src/app.py:84-92) on the outcome of extract: an
extraction exception becomes a 500 carrying its message; a falsy resolved
url becomes the 404 no_video error; otherwise a 200 success body. -/
def apiModel (res : Except String Info) : Nat × Json :=
  match res with
  | Except.error e => (500, errJson e)
  | Except.ok info =>
    let ex := extract info
    if pyTruthyStr ex.vurl then
      (200, Json.obj [(("ok"), Json.jbool true),
                      (("video_url"), Json.str (ex.vurl.getD (""))),
                      (("title"), optJson ex.title)])
    else (404, errJson ("no_video"))

/-- Outcome of one upstream network call: the await raises, or it yields a
response with a status code, a header map and a body (a byte list). -/
inductive FetchOutcome where
  | exc (msg : String)
  | resp (status : Nat) (headers : Headers) (body : List Nat)

/-- Probe step of /dl (src/app.py:119-130): the HEAD request contributes
(content-length, content-type, accept-ranges) only when it does not raise
and its status is in 200..399; any failure leaves all three at None. -/
def probeMeta : FetchOutcome → Option String × Option String × Option String
  | FetchOutcome.exc _ => (none, none, none)
  | FetchOutcome.resp st hs _ =>
    if 200 ≤ st ∧ st < 400 then
      (hGet hs ("content-length"), hGet hs ("content-type"), hGet hs ("accept-ranges"))
    else (none, none, none)

/-- Where a /dl request goes after the probe: the in-memory buffering pass,
or the streaming pass with the range header it forwards upstream (if any). -/
inductive Route where
  | buffer
  | stream (range : Option String)
deriving DecidableEq

/-- want_range = "range" in request.headers (src/app.py:132). -/
def wantRange (rangeHeader : Option String) : Bool := rangeHeader.isSome

/-- Decision step (src/app.py:135,160-163): buffer exactly when no range
was requested and no truthy probed length exists; otherwise stream,
forwarding the downstream range header verbatim when present. -/
def decision (rangeHeader head_len : Option String) : Route :=
  if !(wantRange rangeHeader) && !(pyTruthyStr head_len) then Route.buffer
  else Route.stream (if wantRange rangeHeader then rangeHeader else none)

/-- The code buffers unconditionally on the no-range/no-length path: it has
no configuration switch that disables the in-memory fallback (MAX_BUFFER_MB
only sets the ceiling), so buffer fallback is always enabled. -/
def bufferFallbackEnabled : Bool := true

/-- Single-quote character, used by the RFC 5987 filename parameter. -/
def apos : String := String.mk [Char.ofNat 39]

/-- Uppercase hexadecimal digit of a value below 16. -/
def hexUpper (n : Nat) : Char :=
  if n < 10 then Char.ofNat (48 + n) else Char.ofNat (55 + n)

/-- Bytes urllib.parse.quote keeps unescaped with the default safe set:
ASCII letters, digits, underscore, dot, hyphen, tilde and the slash. -/
def isQuoteSafe (n : Nat) : Bool :=
  (65 ≤ n && n ≤ 90) || (97 ≤ n && n ≤ 122) || (48 ≤ n && n ≤ 57) ||
  n = 95 || n = 46 || n = 45 || n = 126 || n = 47

/-- urllib.parse.quote on the UTF-8 encoding of s. -/
def urlquote (s : String) : String :=
  String.join (s.toUTF8.toList.map (fun b =>
    let n := b.toNat
    if isQuoteSafe n then String.mk [Char.ofNat n]
    else String.mk ['%', hexUpper (n / 16), hexUpper (n % 16)]))

/-- Content-Disposition value built at src/app.py:153 and 181-183: an
inline disposition with the ASCII fallback filename and the percent-encoded
UTF-8 filename. -/
def contentDisposition (fnAscii fnUtf8 : String) : String :=
  "inline; filename=\"" ++ fnAscii ++ "\"; filename*=UTF-8" ++ apos ++ apos ++
  urlquote fnUtf8

/-- Body of a downstream response: a JSON document, a fully-buffered byte
payload, or a byte stream forwarded chunk-by-chunk from upstream. -/
inductive RespBody where
  | json (j : Json)
  | bytes (b : List Nat)
  | streamed (b : List Nat)

/-- A downstream response of /dl: status, body, the media type passed to
the response constructor, and the (case-insensitive) header map. -/
structure DlResponse where
  status : Nat
  body : RespBody
  contentType : Option String
  headers : Headers

/-- One /dl execution: its response, whether the httpx.AsyncClient was
constructed, and how many times client.aclose() ran on that path. -/
structure DlResult where
  resp : DlResponse
  clientCreated : Bool
  clientCloses : Nat

/-- One iteration of the copy-through loop at src/app.py:185-187: copy
header k from the upstream map into the response when present upstream. -/
def copyIf (u : Headers) (hs : Headers) (k : String) : Headers :=
  match hGet u k with
  | some v => hSet hs k v
  | none => hs

/-- StreamPass (src/app.py:160-194): a StreamingResponse with the captured
upstream status, the upstream content-type (falling back to the probed type
or video/mp4), the Content-Disposition header, the five upstream headers
copied through when present, the probed length injected only when no
upstream length exists and no range was requested, and the Accept-Ranges /
Cache-Control defaults. -/
def streamResponse (st : Nat) (u : Headers) (ubody : List Nat)
    (head_len head_type head_ar : Option String) (want_range : Bool)
    (title : Option String) : DlResponse :=
  let ctype := (hGet u ("content-type")).getD (pyOrStr head_type ("video/mp4"))
  let fns := make_filename title
  let h1 := hSet hEmpty ("content-disposition") (contentDisposition fns.1 fns.2)
  let h2 := copyIf u (copyIf u (copyIf u (copyIf u (copyIf u h1
              ("content-length")) ("content-range")) ("accept-ranges"))
              ("etag")) ("last-modified")
  let h3 := if hGet h2 ("content-length") = none ∧ pyTruthyStr head_len = true ∧
               want_range = false
            then hSet h2 ("content-length") (head_len.getD (""))
            else h2
  let h4 := hSetDefault h3 ("accept-ranges") (pyOrStr head_ar ("bytes"))
  let h5 := hSetDefault h4 ("cache-control") ("public, max-age=86400")
  { status := st, body := RespBody.streamed ubody, contentType := some ctype,
    headers := h5 }

/-- BufferPass (src/app.py:136-158) applied to the buffering GET's
response: an upstream status of 400 or more becomes a 502 with the status
in the error text; a body longer than the MAX_BUFFER_MB ceiling becomes a
413 whose body is only the JSON error; otherwise a complete 200 response
whose Content-Length is exactly the buffered size. -/
def bufferPass (maxBufferMB : Nat) (head_type head_ar : Option String)
    (title : Option String) (st : Nat) (rhdrs : Headers)
    (content : List Nat) : DlResponse :=
  if 400 ≤ st then
    { status := 502, body := RespBody.json (errJson ("bad upstream: " ++ toString st)),
      contentType := none, headers := hEmpty }
  else if maxBufferMB * 1024 * 1024 < content.length then
    { status := 413,
      body := RespBody.json (errJson ("file too large > " ++ toString maxBufferMB ++ " MB")),
      contentType := none, headers := hEmpty }
  else
    let ctype := (hGet rhdrs ("content-type")).getD (pyOrStr head_type ("video/mp4"))
    let fns := make_filename title
    let hs := hSet (hSet (hSet (hSet hEmpty
                ("content-disposition") (contentDisposition fns.1 fns.2))
                ("content-length") (toString content.length))
                ("accept-ranges") (pyOrStr head_ar ("bytes")))
                ("cache-control") ("public, max-age=86400")
    { status := 200, body := RespBody.bytes content, contentType := some ctype,
      headers := hs }

/-- Oracle for one /dl request: the extraction outcome, the downstream
range header, and the outcomes of the warm-up GET, the HEAD probe, the
buffering GET and the streaming send.  Only the outcome on the path the
code actually takes is consulted. -/
structure DlOracle where
  extract_result : Except String Info
  rangeHeader : Option String
  warmupFails : Bool
  headResult : FetchOutcome
  getResult : FetchOutcome
  sendResult : FetchOutcome

/-- The /dl endpoint (src/app.py:94-197).  The warm-up GET at line 115 sits
in try/except pass and its value is discarded, so its outcome
(warmupFails) is never consulted.  A raise out of the buffering GET or the
streaming send is caught by the top-level handler at line 196, which
returns a 500 without running client.aclose(): clientCloses is 0 there.
On the stream path the generator's finally block closes the client once
the response body is consumed or cancelled. -/
def dl (maxBufferMB : Nat) (o : DlOracle) : DlResult :=
  match o.extract_result with
  | Except.error e =>
    { resp := { status := 500, body := RespBody.json (errJson e),
                contentType := none, headers := hEmpty },
      clientCreated := false, clientCloses := 0 }
  | Except.ok info =>
    let ex := extract info
    if pyTruthyStr ex.vurl = false then
      { resp := { status := 404, body := RespBody.json (errJson ("no_video")),
                  contentType := none, headers := hEmpty },
        clientCreated := false, clientCloses := 0 }
    else
      let meta := probeMeta o.headResult
      let head_len := meta.1
      let head_type := meta.2.1
      let head_ar := meta.2.2
      match decision o.rangeHeader head_len with
      | Route.buffer =>
        (match o.getResult with
         | FetchOutcome.exc m =>
           { resp := { status := 500, body := RespBody.json (errJson m),
                       contentType := none, headers := hEmpty },
             clientCreated := true, clientCloses := 0 }
         | FetchOutcome.resp st rh body =>
           { resp := bufferPass maxBufferMB head_type head_ar ex.title st rh body,
             clientCreated := true, clientCloses := 1 })
      | Route.stream _rng =>
        (match o.sendResult with
         | FetchOutcome.exc m =>
           { resp := { status := 500, body := RespBody.json (errJson m),
                       contentType := none, headers := hEmpty },
             clientCreated := true, clientCloses := 0 }
         | FetchOutcome.resp st uh ubody =>
           { resp := streamResponse st uh ubody head_len head_type head_ar
                       (wantRange o.rangeHeader) ex.title,
             clientCreated := true, clientCloses := 1 })

theorem hGet_hSet_self (hs : Headers) (k v : String) : hGet (hSet hs k v) k = some v := by
  simp [hGet, hSet]

theorem hGet_hSet_ne (hs : Headers) (k q v : String) (h : q ≠ k) :
    hGet (hSet hs k v) q = hGet hs q := by
  simp [hGet, hSet, h]

theorem hGet_hSetDefault_ne (hs : Headers) (k q v : String) (h : q ≠ k) :
    hGet (hSetDefault hs k v) q = hGet hs q := by
  simp [hGet, hSetDefault, h]

theorem hGet_copyIf_ne (u hs : Headers) (k q : String) (h : q ≠ k) :
    hGet (copyIf u hs k) q = hGet hs q := by
  cases hu : hGet u k <;> simp [copyIf, hu, hGet_hSet_ne _ _ _ _ h]

theorem hGet_copyIf_set (u hs : Headers) (k v : String) (h : hGet u k = some v) :
    hGet (copyIf u hs k) k = some v := by
  simp [copyIf, h, hGet_hSet_self]

/-- Routing of the Decision step as the claim words it, with the
buffer-fallback switch as an explicit parameter. -/
def claimRouteC1 (rangeHeader head_len : Option String) (bufferEnabled : Bool) : Route :=
  if wantRange rangeHeader then Route.stream rangeHeader
  else if pyTruthyStr head_len then Route.stream none
  else if bufferEnabled then Route.buffer
  else Route.stream none

/-- C1: for every /dl request the Decision step routes as the spec states —
a downstream range goes to StreamPass with the range forwarded, else a
truthy probed length goes to StreamPass, else (buffer fallback being
enabled, which in this code it always is) to BufferPass; the final
stream-with-unknown-length branch of the claim corresponds to the
disabled-fallback case, which the code cannot reach. -/
theorem C1_decision_routing (rh hl : Option String) :
    decision rh hl = claimRouteC1 rh hl bufferFallbackEnabled := by
  cases rh with
  | none =>
    cases hl with
    | none => rfl
    | some s =>
      by_cases h : s = "" <;>
        simp [decision, claimRouteC1, wantRange, pyTruthyStr, bufferFallbackEnabled, h]
  | some r =>
    cases hl with
    | none => rfl
    | some s =>
      by_cases h : s = "" <;>
        simp [decision, claimRouteC1, wantRange, pyTruthyStr, bufferFallbackEnabled, h]

/-- C7: buffer mode is never entered when the downstream request carries a
range header — with any range header present the Decision step streams,
forwarding that header, and in particular never buffers. -/
theorem C7_range_never_buffers (s : String) (hl : Option String) :
    decision (some s) hl = Route.stream (some s) ∧ decision (some s) hl ≠ Route.buffer := by
  refine ⟨?_, ?_⟩ <;> simp [decision, wantRange]

/-- C6: when resolution yields no URL, /api returns exactly the JSON body
with ok False and error no_video under status 404; when extraction raises,
/api returns 500 with the captured message. -/
theorem C6_api_error_responses (info : Info) (e : String) :
    (pick_format info = none →
      apiModel (Except.ok info) =
        (404, Json.obj [(("ok"), Json.jbool false), (("error"), Json.str ("no_video"))])) ∧
    apiModel (Except.error e) =
      (500, Json.obj [(("ok"), Json.jbool false), (("error"), Json.str e)]) := by
  constructor
  · intro h
    simp [apiModel, extract, h, pyTruthyStr, errJson]
  · rfl

/-- C2: in StreamPass the status code sent downstream equals the upstream
status code verbatim, and an upstream Content-Range header is copied
through to the downstream response unchanged. -/
theorem C2_streampass_passthrough (st : Nat) (u : Headers) (ubody : List Nat)
    (hl ht har : Option String) (wr : Bool) (title : Option String) :
    (streamResponse st u ubody hl ht har wr title).status = st ∧
    (∀ v : String, hGet u ("content-range") = some v →
      hGet (streamResponse st u ubody hl ht har wr title).headers ("content-range") = some v) := by
  constructor
  · rfl
  · intro v hv
    show hGet (streamResponse st u ubody hl ht har wr title).headers ("content-range") = some v
    unfold streamResponse
    simp only
    rw [hGet_hSetDefault_ne _ _ _ _ (by decide)]
    rw [hGet_hSetDefault_ne _ _ _ _ (by decide)]
    have hcr : ∀ hs : Headers,
        hGet (copyIf u (copyIf u (copyIf u (copyIf u (copyIf u hs
          ("content-length")) ("content-range")) ("accept-ranges"))
          ("etag")) ("last-modified")) ("content-range") = some v := by
      intro hs
      rw [hGet_copyIf_ne _ _ _ _ (by decide)]
      rw [hGet_copyIf_ne _ _ _ _ (by decide)]
      rw [hGet_copyIf_ne _ _ _ _ (by decide)]
      exact hGet_copyIf_set _ _ _ _ hv
    split
    · rw [hGet_hSet_ne _ _ _ _ (by decide)]
      exact hcr _
    · exact hcr _

/-- C4: in BufferPass an upstream status of 400 or more yields a 502 whose
error text carries the upstream status; a fully accumulated body over the
byte ceiling yields a 413 whose body is only the JSON error (no partial
payload bytes); otherwise one complete 200 response whose Content-Length
header equals the buffered size exactly. -/
theorem C4_bufferpass_cases (mB : Nat) (ht har ti : Option String) (st : Nat)
    (rh : Headers) (content : List Nat) :
    (400 ≤ st →
      (bufferPass mB ht har ti st rh content).status = 502 ∧
      (bufferPass mB ht har ti st rh content).body =
        RespBody.json (errJson ("bad upstream: " ++ toString st))) ∧
    (st < 400 → mB * 1024 * 1024 < content.length →
      (bufferPass mB ht har ti st rh content).status = 413 ∧
      (bufferPass mB ht har ti st rh content).body =
        RespBody.json (errJson ("file too large > " ++ toString mB ++ " MB"))) ∧
    (st < 400 → content.length ≤ mB * 1024 * 1024 →
      (bufferPass mB ht har ti st rh content).status = 200 ∧
      hGet (bufferPass mB ht har ti st rh content).headers ("content-length") =
        some (toString content.length) ∧
      (bufferPass mB ht har ti st rh content).body = RespBody.bytes content) := by
  refine ⟨?_, ?_, ?_⟩
  · intro h
    rw [bufferPass, if_pos h]
    exact ⟨rfl, rfl⟩
  · intro h1 h2
    rw [bufferPass, if_neg (by omega), if_pos h2]
    exact ⟨rfl, rfl⟩
  · intro h1 h2
    rw [bufferPass, if_neg (by omega), if_neg (by omega)]
    refine ⟨rfl, ?_, rfl⟩
    simp only
    rw [hGet_hSet_ne _ _ _ _ (by decide)]
    rw [hGet_hSet_ne _ _ _ _ (by decide)]
    exact hGet_hSet_self _ _ _

/-- Concrete candidate with a playable mp4/h264 format. -/
def fmt720 : Format :=
  { ext := some ("mp4"), vcodec := some ("h264"), height := some 720,
    url := some ("https://cdn.example/v.mp4"), hasKeys := true }

/-- Info dict whose resolution succeeds. -/
def infoOk : Info :=
  { formats := some [fmt720], url := none, title := some ("clip"),
    http_headers := none }

/-- Oracle of a /dl request with no Range header whose probe fails (so no
length is known) and whose buffering GET then raises. -/
def leakOracle : DlOracle :=
  { extract_result := Except.ok infoOk, rangeHeader := none,
    warmupFails := false, headResult := FetchOutcome.exc ("probe refused"),
    getResult := FetchOutcome.exc ("connect timeout"),
    sendResult := FetchOutcome.resp 200 hEmpty [] }

/-- C3: evaluation at the failing input.  On a /dl request where the
buffering GET raises, the top-level except returns a 500 and the
AsyncClient created for the request is closed zero times — it leaks —
whereas on the same request with a successful GET it is closed exactly
once.  The streaming send raising leaks the client the same way. -/
theorem C3_client_leaked_on_get_exception :
    (dl 80 leakOracle).clientCreated = true ∧
    (dl 80 leakOracle).clientCloses = 0 ∧
    (dl 80 leakOracle).resp.status = 500 ∧
    (dl 80 { leakOracle with getResult := FetchOutcome.resp 200 hEmpty [] }).clientCloses = 1 ∧
    (dl 80 { leakOracle with rangeHeader := some ("bytes=0-99"),
                             sendResult := FetchOutcome.exc ("read timeout") }).clientCloses = 0 := by
  refine ⟨rfl, rfl, rfl, rfl, rfl⟩

/-- C8: a warm-up failure or a probe failure is never surfaced — the /dl
result does not depend on the warm-up outcome at all, a raised probe
produces the same result whatever its message, a probe answered with a
failure status is handled exactly like a raised probe, and in each of
these cases the request reaches the Decision step with no probed
metadata. -/
theorem C8_warmup_probe_failures_recovered (mB : Nat) (o : DlOracle)
    (b1 b2 : Bool) (m1 m2 : String) (st : Nat) (hs : Headers) (body : List Nat) :
    (dl mB { o with warmupFails := b1 } = dl mB { o with warmupFails := b2 }) ∧
    (dl mB { o with headResult := FetchOutcome.exc m1 } =
      dl mB { o with headResult := FetchOutcome.exc m2 }) ∧
    (400 ≤ st →
      dl mB { o with headResult := FetchOutcome.resp st hs body } =
        dl mB { o with headResult := FetchOutcome.exc m1 }) ∧
    (probeMeta (FetchOutcome.exc m1) = (none, none, none)) ∧
    (400 ≤ st → probeMeta (FetchOutcome.resp st hs body) = (none, none, none)) := by
  refine ⟨rfl, rfl, ?_, rfl, ?_⟩
  · intro h
    have hp : probeMeta (FetchOutcome.resp st hs body) = (none, none, none) := by
      simp [probeMeta]
      omega
    simp only [dl, hp]
    rfl
  · intro h
    simp [probeMeta]
    omega

/-- All-whitespace character lists are fully dropped by dropWhile. -/
theorem dropWhile_all_space (p : Char → Bool) :
    ∀ l : List Char, (∀ c ∈ l, p c = true) → l.dropWhile p = [] := by
  intro l
  induction l with
  | nil => intro _; rfl
  | cons c cs ih =>
    intro h
    have hc : p c = true := h c (List.mem_cons_self c cs)
    simp only [List.dropWhile, hc]
    exact ih (fun d hd => h d (List.mem_cons_of_mem c hd))

/-- Python strip of an all-whitespace string is empty. -/
theorem pyStrip_all_space (l : List Char) (h : ∀ c ∈ l, isPySpace c = true) :
    pyStrip l = [] := by
  unfold pyStrip
  rw [dropWhile_all_space isPySpace l h]
  rfl

/-- C9: for a title that is absent, the empty string, or whitespace-only,
make_filename returns the default pair (video.mp4, video.mp4). -/
theorem C9_default_filename (t : Option String)
    (h : match t with
         | none => True
         | some s => ∀ c ∈ s.data, isPySpace c = true) :
    make_filename t = (("video.mp4"), ("video.mp4")) := by
  cases t with
  | none => rfl
  | some s =>
    by_cases hs : s = ""
    · subst hs
      rfl
    · have hsp : ∀ c ∈ s.data, isPySpace c = true := h
      have hb : pyStrip s.data = [] := pyStrip_all_space s.data hsp
      unfold make_filename
      simp only [hs, if_false, hb]
      rfl

/-- C9 witness: the whitespace-only title of two spaces and a tab yields
the default pair. -/
theorem C9_default_filename_witness :
    make_filename (some ("  \t")) = (("video.mp4"), ("video.mp4")) :=
  C9_default_filename (some ("  \t")) (by decide)

/-- b is the first element of l attaining the maximal key: l splits as
l1 ++ b :: l2 with every element of l1 scoring strictly below b, and no
element of l scores above b. -/
def IsFirstMax (key : Format → Nat) (l : List Format) (b : Format) : Prop :=
  (∃ l1 l2, l = l1 ++ b :: l2 ∧ ∀ f ∈ l1, key f < key b) ∧ ∀ f ∈ l, key f ≤ key b

/-- The foldl inside pyMaxBy computes the first maximum of x :: xs. -/
theorem foldl_isFirstMax (key : Format → Nat) :
    ∀ (xs : List Format) (x : Format),
      IsFirstMax key (x :: xs) (xs.foldl (fun b f => if key b < key f then f else b) x) := by
  intro xs
  induction xs with
  | nil =>
    intro x
    refine ⟨⟨[], [], rfl, by simp⟩, ?_⟩
    intro f hf
    simp only [List.mem_singleton] at hf
    simp [hf]
  | cons y ys ih =>
    intro x
    show IsFirstMax key (x :: y :: ys)
      (ys.foldl (fun b f => if key b < key f then f else b) (if key x < key y then y else x))
    by_cases hxy : key x < key y
    · simp only [if_pos hxy]
      obtain ⟨⟨l1, l2, hsplit, hlt⟩, hmax⟩ := ih y
      have hyM : key y ≤ key (ys.foldl (fun b f => if key b < key f then f else b) y) :=
        hmax y (List.mem_cons_self y ys)
      constructor
      · cases l1 with
        | nil =>
          simp only [List.nil_append] at hsplit
          injection hsplit with hy hl2
          refine ⟨[x], ys, ?_, ?_⟩
          · simp only [List.singleton_append, ← hy]
          · intro f hf
            simp only [List.mem_singleton] at hf
            subst hf
            have hMy : key (ys.foldl (fun b f => if key b < key f then f else b) y) = key y := by
              rw [← hy]
            omega
        | cons a t =>
          simp only [List.cons_append] at hsplit
          injection hsplit with ha hys
          refine ⟨x :: a :: t, l2, ?_, ?_⟩
          · rw [List.cons_append, List.cons_append, ← hys, ← ha]
          · intro f hf
            have haM : key a < key (ys.foldl (fun b f => if key b < key f then f else b) y) :=
              hlt a (List.mem_cons_self a t)
            rcases List.mem_cons.mp hf with hfx | hf2
            · subst hfx
              have hya : key y = key a := by rw [ha]
              omega
            · rcases List.mem_cons.mp hf2 with hfa | hft
              · subst hfa
                exact haM
              · exact hlt f (List.mem_cons_of_mem a hft)
      · intro f hf
        rcases List.mem_cons.mp hf with hfx | hf2
        · subst hfx
          omega
        · exact hmax f hf2
    · simp only [if_neg hxy]
      obtain ⟨⟨l1, l2, hsplit, hlt⟩, hmax⟩ := ih x
      have hxM : key x ≤ key (ys.foldl (fun b f => if key b < key f then f else b) x) :=
        hmax x (List.mem_cons_self x ys)
      constructor
      · cases l1 with
        | nil =>
          simp only [List.nil_append] at hsplit
          injection hsplit with hx hl2
          refine ⟨[], y :: ys, ?_, by simp⟩
          simp only [List.nil_append, ← hx]
        | cons a t =>
          simp only [List.cons_append] at hsplit
          injection hsplit with ha hys
          refine ⟨x :: y :: t, l2, ?_, ?_⟩
          · rw [List.cons_append, List.cons_append, ← hys]
          · intro f hf
            have haM : key a < key (ys.foldl (fun b f => if key b < key f then f else b) x) :=
              hlt a (List.mem_cons_self a t)
            have hxa : key x = key a := by rw [ha]
            rcases List.mem_cons.mp hf with hfx | hf2
            · subst hfx
              omega
            · rcases List.mem_cons.mp hf2 with hfy | hft
              · subst hfy
                omega
              · exact hlt f (List.mem_cons_of_mem a hft)
      · intro f hf
        rcases List.mem_cons.mp hf with hfx | hf2
        · subst hfx
          exact hxM
        · rcases List.mem_cons.mp hf2 with hfy | hft
          · subst hfy
            omega
          · exact hmax f (List.mem_cons_of_mem x hft)

/-- pyMaxBy returns exactly the first maximum of a non-empty list. -/
theorem pyMaxBy_isFirstMax (key : Format → Nat) (x : Format) (xs : List Format) :
    ∃ b, pyMaxBy key (x :: xs) = some b ∧ IsFirstMax key (x :: xs) b :=
  ⟨_, rfl, foldl_isFirstMax key xs x⟩

/-- C5 amended: pick_format scores the candidates as the claim states and
takes the first candidate attaining the maximal score; it returns that
candidate's url field, except that it falls back to the top-level url when
the candidate list is empty or when the chosen candidate is an empty
(falsy) dict. -/
theorem C5_first_max_selection (info : Info) :
    (pyFormats info = [] → pick_format info = info.url) ∧
    (∀ x xs, pyFormats info = x :: xs →
      ∃ b, IsFirstMax Format.score (pyFormats info) b ∧
        pick_format info = (if b.hasKeys then b.url else info.url)) := by
  constructor
  · intro h
    simp [pick_format, h, pyMaxBy]
  · intro x xs h
    obtain ⟨b, hb, hfm⟩ := pyMaxBy_isFirstMax Format.score x xs
    refine ⟨b, h ▸ hfm, ?_⟩
    simp [pick_format, h, hb]

/-- Candidate record of an empty Python dict: every field absent, falsy. -/
def emptyFmt : Format :=
  { ext := none, vcodec := none, height := none, url := none, hasKeys := false }

/-- Info dict with the single empty candidate and a top-level url. -/
def infoCex : Info :=
  { formats := some [emptyFmt], url := some ("https://page.example/fallback.mp4"),
    title := none, http_headers := none }

/-- C5 counterexample: on an info dict whose (non-empty) candidate list
holds one empty record, the highest-scoring candidate is that record and
its url is None, yet pick_format returns the top-level url — the claim's
rule (return the picked candidate's URL, falling back only on an empty
candidate list) fails here, because (best or info) also falls back on a
falsy candidate. -/
theorem C5_counterexample_empty_candidate :
    pyFormats infoCex = [emptyFmt] ∧
    pyMaxBy Format.score (pyFormats infoCex) = some emptyFmt ∧
    emptyFmt.url = none ∧
    pick_format infoCex = some ("https://page.example/fallback.mp4") ∧
    pick_format infoCex ≠ (pyMaxBy Format.score (pyFormats infoCex)).bind Format.url := by
  refine ⟨rfl, rfl, rfl, rfl, ?_⟩
  intro h
  simp [pick_format, pyFormats, infoCex, pyMaxBy, emptyFmt] at h

/-- C10: pick_format is total — it returns either a url string or None, a
null or absent vcodec contributes no codec bonus, a null or absent height
contributes 0, and a null or absent ext contributes no container bonus. -/
theorem C10_pick_format_total (info : Info) (f : Format) :
    (pick_format info = none ∨ ∃ s, pick_format info = some s) ∧
    (f.vcodec = none →
      Format.score f = (if f.ext = some ("mp4") then 10 else 0) + f.height.getD 0) ∧
    (f.height = none →
      Format.score f = (if f.ext = some ("mp4") then 10 else 0) +
        (if ((f.vcodec.getD ("")).startsWith ("avc") ||
             (f.vcodec.getD ("")).startsWith ("h264")) = true then 5 else 0)) ∧
    (f.ext = none →
      Format.score f =
        (if ((f.vcodec.getD ("")).startsWith ("avc") ||
             (f.vcodec.getD ("")).startsWith ("h264")) = true then 5 else 0) +
          f.height.getD 0) := by
  refine ⟨?_, ?_, ?_, ?_⟩
  · cases hp : pick_format info with
    | none => exact Or.inl rfl
    | some s => exact Or.inr ⟨s, rfl⟩
  · intro h
    have hav : String.startsWith ("") ("avc") = false := by decide
    have hh2 : String.startsWith ("") ("h264") = false := by decide
    simp [Format.score, h, hav, hh2]
  · intro h
    simp only [Format.score, h, Option.getD_none]
    split <;> split <;> omega
  · intro h
    by_cases hc : ((f.vcodec.getD ("")).startsWith ("avc") ||
                   (f.vcodec.getD ("")).startsWith ("h264")) = true <;>
      simp [Format.score, h, hc]

end App
